import Mathlib

/-!
# Verification of the scene layout tool (`src/__init__.py`)

A shallow embedding of the Maya-based layout tool.  The host scene graph
(Maya `cmds`) is modelled explicitly as a `Scene` value: a list of nodes with
parent pointers, local affine transforms (exact rationals in place of floats),
an optional string `identifier` attribute, lock flags, and the current
selection.  Undo chunks are modelled as snapshots, matching the interface the
spec describes in its external-interfaces section.

The repository's functions (`lockTransform`, `unlockTransform`, `shortName`,
`addIdentifier`, `initializeOriginal`, `instantiateOriginal`, `findOriginal`,
`matrixFromLocators`, `updateOriginalAndInstances`) are translated line by
line below, on top of the `cmds` model.
-/

/-- A 3-vector of exact rationals (Maya works in floats; we use `ℚ` so that
"within floating-point tolerance" statements become exact equalities). -/
structure Vec3 where
  x : ℚ
  y : ℚ
  z : ℚ
deriving DecidableEq, Repr

namespace Vec3

def add (a b : Vec3) : Vec3 := ⟨a.x + b.x, a.y + b.y, a.z + b.z⟩

def sub (a b : Vec3) : Vec3 := ⟨a.x - b.x, a.y - b.y, a.z - b.z⟩

def smul (c : ℚ) (a : Vec3) : Vec3 := ⟨c * a.x, c * a.y, c * a.z⟩

def zero : Vec3 := ⟨0, 0, 0⟩

end Vec3

/-- An affine transform in Maya's row-vector convention: a point `p` is mapped
to `p.x • r0 + p.y • r1 + p.z • r2 + t`.  `r0`, `r1`, `r2` are the rows of the
linear (upper 3×3) part of the 4×4 matrix and `t` is the translation row. -/
structure Aff where
  r0 : Vec3
  r1 : Vec3
  r2 : Vec3
  t : Vec3
deriving DecidableEq, Repr

namespace Aff

/-- Apply only the linear part (a direction/axis, homogeneous coordinate 0). -/
def applyLin (m : Aff) (v : Vec3) : Vec3 :=
  (Vec3.smul v.x m.r0).add ((Vec3.smul v.y m.r1).add (Vec3.smul v.z m.r2))

/-- Apply the transform to a point (homogeneous coordinate 1). -/
def apply (m : Aff) (p : Vec3) : Vec3 :=
  (m.applyLin p).add m.t

/-- Matrix product `a * b` in row-vector convention: applying `a.comp b`
is applying `a`, then `b`.  (Maya: worldMatrix(child) = local(child) *
worldMatrix(parent).) -/
def comp (a b : Aff) : Aff :=
  ⟨b.applyLin a.r0, b.applyLin a.r1, b.applyLin a.r2, b.apply a.t⟩

def idAff : Aff := ⟨⟨1, 0, 0⟩, ⟨0, 1, 0⟩, ⟨0, 0, 1⟩, ⟨0, 0, 0⟩⟩

/-- A pure translation. -/
def transl (v : Vec3) : Aff := ⟨⟨1, 0, 0⟩, ⟨0, 1, 0⟩, ⟨0, 0, 1⟩, v⟩

/-- Determinant of the linear part. -/
def det3 (m : Aff) : ℚ :=
  m.r0.x * (m.r1.y * m.r2.z - m.r1.z * m.r2.y)
    - m.r0.y * (m.r1.x * m.r2.z - m.r1.z * m.r2.x)
    + m.r0.z * (m.r1.x * m.r2.y - m.r1.y * m.r2.x)

/-- Inverse of an affine transform (adjugate-over-determinant formula on the
linear part).  Total: on a singular linear part the divisions by the zero
determinant follow the `ℚ` convention `q / 0 = 0` and the result is garbage,
matching the host's best-effort behaviour on degenerate transforms (the tool
never checks for singularity). -/
def inv (m : Aff) : Aff :=
  let d := m.det3
  let a := m.r0.x; let b := m.r0.y; let c := m.r0.z
  let e := m.r1.x; let f := m.r1.y; let g := m.r1.z
  let h := m.r2.x; let i := m.r2.y; let j := m.r2.z
  let linv : Aff :=
    ⟨⟨(f * j - g * i) / d, (c * i - b * j) / d, (b * g - c * f) / d⟩,
     ⟨(g * h - e * j) / d, (a * j - c * h) / d, (c * e - a * g) / d⟩,
     ⟨(e * i - f * h) / d, (b * h - a * i) / d, (a * f - b * e) / d⟩,
     Vec3.zero⟩
  { linv with t := Vec3.smul (-1) (linv.applyLin m.t) }

/-- The 16-entry row-major list Maya's `xform -q -ws -m` returns: a proper
homogeneous matrix, translation row ending in `1`. -/
def toList16 (m : Aff) : List ℚ :=
  [m.r0.x, m.r0.y, m.r0.z, 0,
   m.r1.x, m.r1.y, m.r1.z, 0,
   m.r2.x, m.r2.y, m.r2.z, 0,
   m.t.x, m.t.y, m.t.z, 1]

/-- How the host consumes a 16-entry list passed to `xform -ws -m`: it is
decomposed as a transformation matrix, which uses the affine 3×4 part (rows
0–2 columns 0–2 and the translation row) and ignores the fourth column.
Modelled from the spec: "query/set an entity's world-space affine transform as
a 4×4 matrix" (external scene-graph interface). -/
def ofList16 (l : List ℚ) : Aff :=
  ⟨⟨l.getD 0 0, l.getD 1 0, l.getD 2 0⟩,
   ⟨l.getD 4 0, l.getD 5 0, l.getD 6 0⟩,
   ⟨l.getD 8 0, l.getD 9 0, l.getD 10 0⟩,
   ⟨l.getD 12 0, l.getD 13 0, l.getD 14 0⟩⟩

end Aff

/-- A scene-graph node (a Maya transform; locators are transforms carrying a
locator shape, recorded here by the `isLocator` flag).  `nid` is the node's
stable handle (Maya: the DAG object identity, independent of name/path).
`attrLocked` models `setAttr ... lock=True` on translate/rotate/scale;
`nodeLocked` models `lockNode`. -/
structure Node where
  nid : Nat
  name : String
  parent : Option Nat
  localXf : Aff
  identifier : Option String
  nodeLocked : Bool
  attrLocked : Bool
  hidden : Bool
  isLocator : Bool
deriving DecidableEq, Repr

/-- An undo snapshot: nodes, fresh-id counter and selection. -/
structure Snap where
  nodes : List Node
  nextId : Nat
  selection : List Nat
deriving DecidableEq, Repr

/-- The whole mutable state of the host: the scene graph, the fresh-id
counter, the current selection, and the undo-chunk machinery (`chunkStack`
holds snapshots for currently open chunks, `lastChunk` the snapshot of the
most recently closed chunk, which a single `undo` restores). -/
structure Scene where
  nodes : List Node
  nextId : Nat
  selection : List Nat
  chunkStack : List Snap
  lastChunk : Option Snap
deriving DecidableEq, Repr

def Scene.snap (s : Scene) : Snap := ⟨s.nodes, s.nextId, s.selection⟩

/-- The effect monad: state plus Python-style exceptions.  An error carries
the message of `cmds.error` / `RuntimeError`; the state at the moment of the
raise is preserved (scene mutations are not rolled back by raising). -/
def M (α : Type) : Type := Scene → Except String α × Scene

instance : Monad M where
  pure a := fun s => (Except.ok a, s)
  bind x f := fun s =>
    match x s with
    | (Except.ok a, s') => f a s'
    | (Except.error e, s') => (Except.error e, s')

/-- Raise (models `cmds.error`, which raises in Python). -/
def throwM {α : Type} (msg : String) : M α := fun s => (Except.error msg, s)

def getS : M Scene := fun s => (Except.ok s, s)

def setS (s' : Scene) : M Unit := fun _ => (Except.ok (), s')

def modifyS (f : Scene → Scene) : M Unit := fun s => (Except.ok (), f s)

@[simp] theorem bind_M_def {α β : Type} (x : M α) (f : α → M β) (s : Scene) :
    (x >>= f) s =
      match x s with
      | (Except.ok a, s') => f a s'
      | (Except.error e, s') => (Except.error e, s') := rfl

@[simp] theorem pure_M_def {α : Type} (a : α) (s : Scene) :
    (pure a : M α) s = (Except.ok a, s) := rfl

@[simp] theorem throwM_def {α : Type} (msg : String) (s : Scene) :
    (throwM msg : M α) s = (Except.error msg, s) := rfl

@[simp] theorem getS_def (s : Scene) : getS s = (Except.ok s, s) := rfl

@[simp] theorem setS_def (s' s : Scene) : setS s' s = (Except.ok (), s') := rfl

@[simp] theorem modifyS_def (f : Scene → Scene) (s : Scene) :
    modifyS f s = (Except.ok (), f s) := rfl

/-! ## The host `cmds` model

Each definition below models one Maya `cmds` primitive at the interface the
spec gives for the external scene-graph collaborator (entity creation,
parenting, duplication, deletion, renaming, attribute get/set, locking,
transform query/set, selection query, hiding, undo bracketing). -/

/-- Find a node by id in a node pool. -/
def getNodeL (pool : List Node) (i : Nat) : Option Node :=
  pool.find? (fun n => n.nid == i)

def getNode (s : Scene) (i : Nat) : Option Node :=
  getNodeL s.nodes i

def nameOf (s : Scene) (i : Nat) : String :=
  ((getNode s i).map (·.name)).getD ""

def childrenOfL (pool : List Node) (i : Nat) : List Node :=
  pool.filter (fun n => n.parent == some i)

def childrenOf (s : Scene) (i : Nat) : List Node :=
  childrenOfL s.nodes i

/-- Resolve one path component: the node named `c` whose parent is `p`
(`p = none` = the scene root). -/
def resolveComp (pool : List Node) (p : Option Nat) (c : String) : Option Nat :=
  ((pool.find? (fun n => n.parent == p && n.name == c)).map (·.nid))

/-- Resolve a full path given as components (the model of a Maya long name
`|a|b|c`, whose components are `[a, b, c]`; Maya names cannot contain `|`,
so component lists and long-name strings are in bijection). -/
def resolvePathAux (pool : List Node) (p : Option Nat) : List String → Option Nat
  | [] => p
  | c :: rest =>
    match resolveComp pool p c with
    | none => none
    | some i => resolvePathAux pool (some i) rest

def resolvePath (s : Scene) (comps : List String) : Option Nat :=
  match comps with
  | [] => none
  | c :: rest =>
    match resolveComp s.nodes none c with
    | none => none
    | some i => resolvePathAux s.nodes (some i) rest

def childByName (s : Scene) (p : Nat) (c : String) : Option Nat :=
  resolveComp s.nodes (some p) c

/-- World transform: fold local transforms up the parent chain
(worldMatrix(child) = local(child) * worldMatrix(parent)).  The list argument
is fuel bounding the chain length; callers pass `s.nodes`. -/
def worldAux (pool : List Node) : List Node → Option Nat → Aff
  | _, none => Aff.idAff
  | [], some _ => Aff.idAff
  | _ :: rest, some i =>
    match getNodeL pool i with
    | none => Aff.idAff
    | some n => n.localXf.comp (worldAux pool rest n.parent)

def worldOf (s : Scene) (i : Nat) : Aff :=
  worldAux s.nodes s.nodes (some i)

def worldOfParent (s : Scene) (n : Node) : Aff :=
  match n.parent with
  | none => Aff.idAff
  | some p => worldOf s p

/-- World-space position of a node's pivot (`xform -q -ws -rp`): the
translation row of its world matrix. -/
def posOf (s : Scene) (i : Nat) : Vec3 :=
  (worldOf s i).t

/-- Long-name components of a node (`ls -l`). -/
def pathAux (pool : List Node) : List Node → Option Nat → List String
  | _, none => []
  | [], some _ => []
  | _ :: rest, some i =>
    match getNodeL pool i with
    | none => []
    | some n => pathAux pool rest n.parent ++ [n.name]

def pathOf (s : Scene) (i : Nat) : List String :=
  pathAux s.nodes s.nodes (some i)

/-- Collect a node and all its descendants, root first (the subtree a
`duplicate` copies and a `delete` removes).  Fuel list bounds the depth. -/
def collectSubtree (pool : List Node) : List Node → Nat → List Node
  | [], _ => []
  | _ :: rest, i =>
    match getNodeL pool i with
    | none => []
    | some n => n :: (childrenOfL pool i).flatMap (fun c => collectSubtree pool rest c.nid)

/-- A fresh name not used by any node, built by suffixing `1`s to the base
name, the way Maya uniquifies names of duplicates and clashing renames
(`Pillar` ↦ `Pillar1`; the exact suffix characters are a host detail the tool
never relies on).  The fuel list bounds the search. -/
def freshNameAux (pool : List Node) : List Node → String → String
  | [], base => base ++ "1"
  | _ :: rest, base =>
    let cand := base ++ "1"
    if pool.any (fun n => n.name == cand) then freshNameAux pool rest cand
    else cand

def freshName (pool : List Node) (base : String) : String :=
  freshNameAux pool pool base

def modifyNode (i : Nat) (f : Node → Node) (s : Scene) : Scene :=
  { s with nodes := s.nodes.map (fun n => if n.nid == i then f n else n) }

/-- `cmds.ls(sl=True, type="transform")`: the current selection (every node
in the model is a transform; locator shapes are carried by their transform). -/
def selTransforms (s : Scene) : List Nat :=
  s.selection.filter (fun i => (getNode s i).isSome)

/-- `cmds.ls("|Originals|*", sl=True, type="transform")`: selected direct
children of the root-level `Originals` node. -/
def selOriginalsChildren (s : Scene) : List Nat :=
  match resolveComp s.nodes none "Originals" with
  | none => []
  | some r =>
    s.selection.filter (fun i =>
      match getNode s i with
      | none => false
      | some n => n.parent == some r)

/-- `cmds.ls("*.identifier", l=True)`: every node carrying the identifier
attribute, in scene order. -/
def lsIdentifierNodes (s : Scene) : List Nat :=
  (s.nodes.filter (fun n => n.identifier.isSome)).map (·.nid)

/-- `cmds.spaceLocator(name=nm)`: a new hidden-shape locator transform at the
world origin, selected.  (Maya uniquifies the name against clashes at the
root.) -/
def spaceLocator (nm : String) : M Nat := fun s =>
  let nm' := if (s.nodes.any (fun n => n.parent == none && n.name == nm)) then freshName s.nodes nm else nm
  let node : Node :=
    { nid := s.nextId, name := nm', parent := none, localXf := Aff.idAff,
      identifier := none, nodeLocked := false, attrLocked := false,
      hidden := false, isLocator := true }
  (Except.ok s.nextId,
    { s with nodes := s.nodes ++ [node], nextId := s.nextId + 1, selection := [s.nextId] })

/-- `cmds.group(em=True, name=nm)`: a new empty transform at the root,
selected. -/
def groupEmpty (nm : String) : M Nat := fun s =>
  let node : Node :=
    { nid := s.nextId, name := nm, parent := none, localXf := Aff.idAff,
      identifier := none, nodeLocked := false, attrLocked := false,
      hidden := false, isLocator := false }
  (Except.ok s.nextId,
    { s with nodes := s.nodes ++ [node], nextId := s.nextId + 1, selection := [s.nextId] })

/-- `cmds.parent(child, newParent)`: re-parent preserving the world transform
(new local = world(child) * world(newParent)⁻¹).  Fails on a missing node and
on a locked child (locked nodes cannot be re-parented).  Selects the
re-parented child. -/
def parentCmd (childId newParentId : Nat) : M Nat := fun s =>
  match getNode s childId, getNode s newParentId with
  | some c, some _ =>
    if c.nodeLocked then (Except.error "parent: locked node cannot be re-parented", s)
    else
      let newLocal := (worldOf s childId).comp (worldOf s newParentId).inv
      (Except.ok childId,
        { modifyNode childId (fun n => { n with parent := some newParentId, localXf := newLocal }) s
          with selection := [childId] })
  | _, _ => (Except.error "parent: no object matches name", s)

/-- `cmds.parent(child, w=True)`: detach to the top of the hierarchy keeping
the world transform.  Modelled from the spec: "detaches it to the top of the
scene hierarchy (no parent)" — total on existing unlocked nodes. -/
def parentToWorld (childId : Nat) : M Nat := fun s =>
  match getNode s childId with
  | none => (Except.error "parent: no object matches name", s)
  | some c =>
    if c.nodeLocked then (Except.error "parent: locked node cannot be re-parented", s)
    else
      let w := worldOf s childId
      (Except.ok childId,
        { modifyNode childId (fun n => { n with parent := none, localXf := w }) s
          with selection := [childId] })

/-- `cmds.parent(child, "|path")`: re-parent under a node given by path. -/
def parentCmdPath (childId : Nat) (comps : List String) : M Nat := fun s =>
  match resolvePath s comps with
  | none => (Except.error "parent: no object matches name", s)
  | some p => parentCmd childId p s

/-- `cmds.setAttr(node + ".translate", x, y, z)`: set the local translation;
fails when the transform attributes are locked. -/
def setTranslateCmd (i : Nat) (v : Vec3) : M Unit := fun s =>
  match getNode s i with
  | none => (Except.error "setAttr: no object matches name", s)
  | some n =>
    if n.attrLocked then (Except.error "setAttr: attribute is locked", s)
    else (Except.ok (), modifyNode i (fun n => { n with localXf := { n.localXf with t := v } }) s)

/-- `cmds.setAttr(node + ".translate"/".rotate"/".scale", lock=b)` (the three
transform attributes are always locked/unlocked together by this tool). -/
def setAttrLockTRS (i : Nat) (b : Bool) : M Unit := fun s =>
  match getNode s i with
  | none => (Except.error "setAttr: no object matches name", s)
  | some _ => (Except.ok (), modifyNode i (fun n => { n with attrLocked := b }) s)

/-- `cmds.lockNode(node, lock=b)`. -/
def lockNodeCmd (i : Nat) (b : Bool) : M Unit := fun s =>
  match getNode s i with
  | none => (Except.error "lockNode: no object matches name", s)
  | some _ => (Except.ok (), modifyNode i (fun n => { n with nodeLocked := b }) s)

/-- `cmds.hide(nodes)`. -/
def hideCmd (ids : List Nat) : M Unit := fun s =>
  (Except.ok (),
    { s with nodes := s.nodes.map (fun n => if ids.contains n.nid then { n with hidden := true } else n) })

/-- `cmds.getAttr(node + ".identifier")`: fails when the node or the
attribute is missing. -/
def getAttrIdentifierM (i : Nat) : M String := fun s =>
  match getNode s i with
  | none => (Except.error "getAttr: no object matches name", s)
  | some n =>
    match n.identifier with
    | none => (Except.error "getAttr: attribute not found", s)
    | some v => (Except.ok v, s)

/-- Position of `pid` in the id list (used to re-target parent pointers of
duplicated subtree nodes onto the corresponding fresh ids). -/
def idIndex (pid : Nat) : List Nat → Nat → Option Nat
  | [], _ => none
  | j :: rest, k => if j == pid then some k else idIndex pid rest (k + 1)

/-- Renumber a collected subtree (root first) onto fresh ids `base`, `base+1`,
…: the root keeps its parent and takes the fresh name `nm`; every other node
keeps its name and has its parent pointer re-targeted into the copy. -/
def remapSubtree (base : Nat) (nm : String) (ids : List Nat) : Nat → List Node → List Node
  | _, [] => []
  | k, n :: rest =>
    { n with
      nid := base + k
      name := if k = 0 then nm else n.name
      parent :=
        if k = 0 then n.parent
        else
          match n.parent with
          | none => none
          | some pid =>
            match idIndex pid ids 0 with
            | some j => some (base + j)
            | none => some pid } :: remapSubtree base nm ids (k + 1) rest

/-- `cmds.duplicate(node)[0]`: deep-copy the subtree (children — including
the hidden basis locators — travel with the copy), give the copy root a fresh
uniquified name, keep every other attribute (transform, identifier, lock and
hidden flags), keep the same parent, and select the copy. -/
def duplicateCmd (origId : Nat) : M Nat := fun s =>
  match getNode s origId with
  | none => (Except.error "duplicate: no object matches name", s)
  | some orig =>
    let sub := collectSubtree s.nodes s.nodes origId
    let ids := sub.map (·.nid)
    let base := s.nextId
    let nm := freshName s.nodes orig.name
    let newNodes := remapSubtree base nm ids 0 sub
    (Except.ok base,
      { s with nodes := s.nodes ++ newNodes, nextId := base + sub.length, selection := [base] })

/-- `cmds.rename(node, nm)`: fails on a missing or locked node; a clash with
a sibling name is resolved by uniquifying, as Maya does. -/
def renameCmd (i : Nat) (nm : String) : M Nat := fun s =>
  match getNode s i with
  | none => (Except.error "rename: no object matches name", s)
  | some n =>
    if n.nodeLocked then (Except.error "rename: locked node cannot be renamed", s)
    else
      let clash := s.nodes.any (fun m => m.parent == n.parent && m.name == nm && !(m.nid == i))
      let nm' := if clash then freshName s.nodes nm else nm
      (Except.ok i, modifyNode i (fun n => { n with name := nm' }) s)

/-- `cmds.delete(node)`: remove the node and its whole subtree (fails on a
missing or locked node — the tool always unlocks before deleting). -/
def deleteCmd (i : Nat) : M Unit := fun s =>
  match getNode s i with
  | none => (Except.error "delete: no object matches name", s)
  | some n =>
    if n.nodeLocked then (Except.error "delete: locked node", s)
    else
      let doomed := (collectSubtree s.nodes s.nodes i).map (·.nid)
      (Except.ok (),
        { s with
          nodes := s.nodes.filter (fun m => !(doomed.contains m.nid))
          selection := s.selection.filter (fun j => !(doomed.contains j)) })

/-- `cmds.xform(node, q=True, ws=True, m=True)`: the world matrix as a
16-float row-major list (a proper homogeneous matrix, last entry 1). -/
def xformQueryWorldM (i : Nat) : M (List ℚ) := fun s =>
  match getNode s i with
  | none => (Except.error "xform: no object matches name", s)
  | some _ => (Except.ok ((worldOf s i).toList16), s)

/-- `cmds.xform(node, ws=True, m=l)`: set the world transform from a 16-entry
list (decomposed by the host as an affine transformation; the fourth column is
not part of the decomposition).  The new local transform is
`world * parentWorld⁻¹`; fails on locked transform attributes. -/
def xformSetWorldM (i : Nat) (l : List ℚ) : M Unit := fun s =>
  match getNode s i with
  | none => (Except.error "xform: no object matches name", s)
  | some n =>
    if n.attrLocked then (Except.error "xform: attribute is locked", s)
    else
      (Except.ok (),
        modifyNode i (fun m => { m with localXf := (Aff.ofList16 l).comp (worldOfParent s n).inv }) s)

/-- `cmds.undoInfo(openChunk=True)`: snapshot the scene onto the chunk
stack. -/
def openChunk : M Unit :=
  modifyS fun s => { s with chunkStack := s.snap :: s.chunkStack }

/-- `cmds.undoInfo(closeChunk=True)`: pop the innermost open chunk; the undo
command will restore its snapshot. -/
def closeChunk : M Unit :=
  modifyS fun s =>
    match s.chunkStack with
    | [] => s
    | c :: rest => { s with chunkStack := rest, lastChunk := some c }

/-- `cmds.undo()`: a single best-effort undo of the most recently closed
chunk. -/
def undoCmd : M Unit :=
  modifyS fun s =>
    match s.lastChunk with
    | none => s
    | some c =>
      { s with nodes := c.nodes, nextId := c.nextId, selection := c.selection, lastChunk := none }

/-- Python `try ... except: handler`: run `x`; on an exception run the
handler on the state at the raise (scene mutations persist). -/
def pyTry {α : Type} (x : M α) (handler : String → M α) : M α := fun s =>
  match x s with
  | (Except.ok a, s') => (Except.ok a, s')
  | (Except.error e, s') => handler e s'

@[simp] theorem pyTry_def {α : Type} (x : M α) (handler : String → M α) (s : Scene) :
    pyTry x handler s =
      match x s with
      | (Except.ok a, s') => (Except.ok a, s')
      | (Except.error e, s') => handler e s' := rfl

/-- Lift a pure fallible computation into the effect monad. -/
def liftE {α : Type} (x : Except String α) : M α := fun s => (x, s)

@[simp] theorem liftE_def {α : Type} (x : Except String α) (s : Scene) :
    liftE x s = (x, s) := rfl

/-! ## The repository's functions (`src/__init__.py`) -/

/-- `lockTransform(node)`: lock translate/rotate/scale, then lock the node. -/
def lockTransform (node : Nat) : M Unit := do
  setAttrLockTRS node true
  lockNodeCmd node true

/-- `unlockTransform(node)`: unlock the node, then unlock
translate/rotate/scale. -/
def unlockTransform (node : Nat) : M Unit := do
  lockNodeCmd node false
  setAttrLockTRS node false

/-- `shortName(node)`: `node.rsplit("|", 1)[-1]` — the last path component
(paths are modelled as component lists). -/
def shortName (path : List String) : String :=
  path.getLastD ""

/-- `addIdentifier(node, identifier)`: delete any existing `identifier`
attribute, re-add it, and set its value — net effect: the attribute holds
`identifier`. -/
def addIdentifier (node : Nat) (identifier : String) : M Unit := fun s =>
  match getNode s node with
  | none => (Except.error "addAttr: no object matches name", s)
  | some _ =>
    (Except.ok (), modifyNode node (fun n => { n with identifier := some identifier }) s)

/-- `findOriginal(identifier)`: scan `|Originals|*.identifier` in scene order
and return the node whose attribute value matches; `None` (here `none`) when
the loop falls through. -/
def findOriginal (s : Scene) (identifier : String) : Option Nat :=
  match resolveComp s.nodes none "Originals" with
  | none => none
  | some r =>
    ((s.nodes.filter (fun n => n.parent == some r && n.identifier.isSome)).find?
      (fun n => n.identifier == some identifier)).map (·.nid)

/-- `matrixFromLocators(node)`: world positions of the four basis locators
(`xform -q -ws -rp`), subtract the `Zero` position from the three axis
positions, append `0.0` to all four rows (including the translation row —
the flagged discrepancy), and concatenate. -/
def matrixFromLocators (s : Scene) (node : Nat) : Except String (List ℚ) :=
  match childByName s node "X", childByName s node "Y",
        childByName s node "Z", childByName s node "Zero" with
  | some xI, some yI, some zI, some zeroI =>
    let row3 := posOf s zeroI
    let row0 := (posOf s xI).sub row3
    let row1 := (posOf s yI).sub row3
    let row2 := (posOf s zI).sub row3
    Except.ok
      [row0.x, row0.y, row0.z, 0,
       row1.x, row1.y, row1.z, 0,
       row2.x, row2.y, row2.z, 0,
       row3.x, row3.y, row3.z, 0]
  | _, _, _, _ => Except.error "xform: no object matches name"

/-- `instantiateOriginal(original=None)`: inside an undo chunk, resolve the
original (from the selection when the argument is `None`), duplicate it,
unlock the copy and detach it to the world root; on failure close the chunk,
`cmds.undo()`, and re-raise; on success close the chunk and return the
copy. -/
def instantiateOriginal (original : Option Nat) : M Nat := do
  openChunk
  pyTry
    (do
      let orig ←
        match original with
        | some o => pure o
        | none => do
          let s ← getS
          let sel := selOriginalsChildren s
          if sel.length ≠ 1 then throwM "Please select exactly 1 object."
          pure (sel.headD 0)
      let copy ← duplicateCmd orig
      unlockTransform copy
      let copy ← parentToWorld copy
      closeChunk
      pure copy)
    (fun err => do
      closeChunk
      undoCmd
      throwM err)

/-- Lines 53–61 of the source — the BasisFrame attachment steps of
publish-first: create the four locators (each at the world origin), parent
them under the entity preserving their world position, set the local
translations of `X`/`Y`/`Z` to the unit offsets, and hide all four. -/
def attachBasisFrame (e : Nat) : M Unit := do
  let zeroLoc ← spaceLocator "Zero"
  let zeroP ← parentCmd zeroLoc e
  let xLoc ← spaceLocator "X"
  let locX ← parentCmd xLoc e
  let yLoc ← spaceLocator "Y"
  let locY ← parentCmd yLoc e
  let zLoc ← spaceLocator "Z"
  let locZ ← parentCmd zLoc e
  setTranslateCmd locX ⟨1, 0, 0⟩
  setTranslateCmd locY ⟨0, 1, 0⟩
  setTranslateCmd locZ ⟨0, 0, 1⟩
  hideCmd [zeroP, locX, locY, locZ]

/-- `initializeOriginal()`: inside an undo chunk — validate a 1-transform
selection, attach the four basis locators, ensure the `Originals` group,
parent the selection into it, tag it with its short name, lock it, and
instantiate a working copy.  On failure the chunk is closed and the error
re-raised (the `cmds.undo()` call is commented out in the source). -/
def initializeOriginal : M Unit := do
  openChunk
  pyTry
    (do
      let s ← getS
      let selection := selTransforms s
      if selection.length ≠ 1 then throwM "Please select exactly 1 object."
      let e := selection.headD 0
      -- make locators representing the local space
      attachBasisFrame e
      -- ensure the Originals group exists
      let s ← getS
      if (resolvePath s ["Originals"]).isNone then do
        let g ← groupEmpty "Originals"
        lockTransform g
        hideCmd [g]
      -- parent the original
      let e ← parentCmdPath e ["Originals"]
      -- add the identifier (the short name of the path `cmds.parent` returned)
      let s ← getS
      addIdentifier e (shortName (pathOf s e))
      -- lock the original
      lockTransform e
      -- instantiate the original so we have a workable copy
      let _ ← instantiateOriginal none
      closeChunk)
    (fun err => do
      closeChunk
      -- `cmds.undo()` is commented out in the source
      throwM err)

/-- `cmds.parent(p + "|" + nm, newParent)`: re-parent the child of `p` named
`nm` (used for the four locator paths `old|Zero`, `old|X`, …). -/
def parentChildOfByName (p : Nat) (nm : String) (newParent : Nat) : M Nat := do
  let s ← getS
  match childByName s p nm with
  | none => throwM "parent: no object matches name"
  | some c => parentCmd c newParent

/-- One iteration of the propagation loop of `updateOriginalAndInstances`
(lines 175–194): skip entities inside `|Originals|`, skip other identifiers,
otherwise re-create the instance from the new original at its sampled world
pose, at the same parent path, with the same name. -/
def updateInstancesStep (identifier : String) (newOrig : Nat) (inst : Nat) : M Unit := do
  let s ← getS
  let p := pathOf s inst
  -- do not replace originals, only instances (`startswith("|Originals|")`)
  if p.headD "" = "Originals" ∧ 2 ≤ p.length then pure ()
  else do
    -- do not replace objects with the wrong identifier
    let v ← getAttrIdentifierM inst
    if v ≠ identifier then pure ()
    else do
      -- move a copy to the right place
      let copy ← instantiateOriginal (some newOrig)
      let s ← getS
      let instPath := pathOf s inst
      let matrix ← liftE (matrixFromLocators s inst)
      xformSetWorldM copy matrix
      -- delete the old instance
      deleteCmd inst
      -- steal its parent and name (`instance.rsplit("|", 1)`)
      let parentComps := instPath.dropLast
      let oldName := instPath.getLastD ""
      let copy ← if parentComps.isEmpty then pure copy else parentCmdPath copy parentComps
      let _ ← renameCmd copy oldName
      pure ()

/-- The propagation phase: iterate over the snapshot of
`cmds.ls("*.identifier", l=True)` taken before the loop. -/
def updateInstancesLoop (identifier : String) (newOrig : Nat) : List Nat → M Unit
  | [] => pure ()
  | inst :: rest => do
    updateInstancesStep identifier newOrig inst
    updateInstancesLoop identifier newOrig rest

/-- `updateOriginalAndInstances()`: validate the two-transform selection,
duplicate the new candidate, resolve the old original by identifier, copy the
old original's world matrix onto the duplicate, transfer the four basis
locators, re-tag, delete the old original, move the duplicate into
`|Originals` under the old display name, lock it, then propagate to every
instance.  (No undo chunk and no rollback in this operation.) -/
def updateOriginalAndInstances : M Unit := do
  -- validate the selection
  let s ← getS
  let selection := selTransforms s
  if selection.length ≠ 2 then
    throwM "Please select the new and then the old object."
  let newCand := selection.headD 0
  let oldRef := selection.getD 1 0
  let s ← getS
  let hasId :=
    match getNode s oldRef with
    | some n => n.identifier.isSome
    | none => false
  if !hasId then
    throwM "Please select the new and then the old object. The old object is missing the identifier attribute, did you select in the wrong order?"
  -- get the new and old objects
  let new ← duplicateCmd newCand
  let identifier ← getAttrIdentifierM oldRef
  let s ← getS
  match findOriginal s identifier with
  | none => throwM ("Unexpected error, could not find original object with " ++ identifier ++ ".")
  | some old => do
    let oldPath := pathOf s old
    -- copy the position to new
    let oldMatrix ← xformQueryWorldM old
    xformSetWorldM new oldMatrix
    -- move the locators to new
    let _ ← parentChildOfByName old "Zero" new
    let _ ← parentChildOfByName old "X" new
    let _ ← parentChildOfByName old "Y" new
    let _ ← parentChildOfByName old "Z" new
    -- add the identifier to the new original
    addIdentifier new identifier
    -- delete old
    unlockTransform old
    deleteCmd old
    -- rename new, parent it to the same parent, lock it
    let new ← parentCmdPath new ["Originals"]
    let new ← renameCmd new (shortName oldPath)
    lockTransform new
    -- update instances
    let s ← getS
    updateInstancesLoop identifier new (lsIdentifierNodes s)

/-! ## Scenario scenes

Concrete (but symbolically parameterised) scenes on which the spec's claims
are settled.  Node ids are stable handles; poses that a claim quantifies over
are free variables of type `ℚ`-vector/affine. -/

def mkNode (i : Nat) (nm : String) (p : Option Nat) (xf : Aff) (idf : Option String)
    (nl al hid loc : Bool) : Node :=
  ⟨i, nm, p, xf, idf, nl, al, hid, loc⟩

/-- A single entity (nid 0) at the scene root with local transform `T` and an
intact BasisFrame: the four locators at their attach-time unit offsets, as
`initializeOriginal` creates them on an entity at the identity.  Moving the
entity to `T` afterwards leaves the children's locals untouched, so this is
exactly the "attached at identity, then transformed by `T`" configuration. -/
def basisScene (T : Aff) : Scene :=
  { nodes :=
      [mkNode 0 "Pillar" none T (some "Pillar") false false false false,
       mkNode 1 "Zero" (some 0) Aff.idAff none false false true true,
       mkNode 2 "X" (some 0) (Aff.transl ⟨1, 0, 0⟩) none false false true true,
       mkNode 3 "Y" (some 0) (Aff.transl ⟨0, 1, 0⟩) none false false true true,
       mkNode 4 "Z" (some 0) (Aff.transl ⟨0, 0, 1⟩) none false false true true],
    nextId := 5, selection := [0], chunkStack := [], lastChunk := none }

/-- Publish-update scenario: the old canonical `Pillar` (nid 1, world
translation `a`) with its basis frame (nids 2–5) inside `Originals` (nid 0);
one live instance `Inst` (nid 7, local = world pose `L`) under the root-level
group `Grp` (nid 6) with its own frame copy (nids 8–11); the new geometry
candidate `NewCand` (nid 12); a second canonical `Other` (nid 13) with an
instance `OtherInst` (nid 14, pose `O`) carrying a different identifier, and
an untagged `Bystander` (nid 15).  Selection: `[NewCand, Inst]`. -/
def updScene (a : Vec3) (L O : Aff) : Scene :=
  { nodes :=
      [mkNode 0 "Originals" none Aff.idAff none true true true false,
       mkNode 1 "Pillar" (some 0) (Aff.transl a) (some "Pillar") true true false false,
       mkNode 2 "Zero" (some 1) Aff.idAff none false false true true,
       mkNode 3 "X" (some 1) (Aff.transl ⟨1, 0, 0⟩) none false false true true,
       mkNode 4 "Y" (some 1) (Aff.transl ⟨0, 1, 0⟩) none false false true true,
       mkNode 5 "Z" (some 1) (Aff.transl ⟨0, 0, 1⟩) none false false true true,
       mkNode 6 "Grp" none Aff.idAff none false false false false,
       mkNode 7 "Inst" (some 6) L (some "Pillar") false false false false,
       mkNode 8 "Zero" (some 7) Aff.idAff none false false true true,
       mkNode 9 "X" (some 7) (Aff.transl ⟨1, 0, 0⟩) none false false true true,
       mkNode 10 "Y" (some 7) (Aff.transl ⟨0, 1, 0⟩) none false false true true,
       mkNode 11 "Z" (some 7) (Aff.transl ⟨0, 0, 1⟩) none false false true true,
       mkNode 12 "NewCand" none Aff.idAff none false false false false,
       mkNode 13 "Other" (some 0) Aff.idAff (some "Other") true true false false,
       mkNode 14 "OtherInst" none O (some "Other") false false false false,
       mkNode 15 "Bystander" none Aff.idAff none false false false false],
    nextId := 16, selection := [12, 7], chunkStack := [], lastChunk := none }

/-- The scene state right after the canonical swap of `updateOriginalAndInstances`
(old canonical nid 1 deleted, its frame nids 2–5 re-parented onto the new
canonical nid 16), which is also the snapshot taken by the propagation's
inner undo chunk. -/
def updMid (a : Vec3) (L O : Aff) : Snap :=
  { nodes :=
      [mkNode 0 "Originals" none Aff.idAff none true true true false,
       mkNode 2 "Zero" (some 16) Aff.idAff none false false true true,
       mkNode 3 "X" (some 16) (Aff.transl ⟨1, 0, 0⟩) none false false true true,
       mkNode 4 "Y" (some 16) (Aff.transl ⟨0, 1, 0⟩) none false false true true,
       mkNode 5 "Z" (some 16) (Aff.transl ⟨0, 0, 1⟩) none false false true true,
       mkNode 6 "Grp" none Aff.idAff none false false false false,
       mkNode 7 "Inst" (some 6) L (some "Pillar") false false false false,
       mkNode 8 "Zero" (some 7) Aff.idAff none false false true true,
       mkNode 9 "X" (some 7) (Aff.transl ⟨1, 0, 0⟩) none false false true true,
       mkNode 10 "Y" (some 7) (Aff.transl ⟨0, 1, 0⟩) none false false true true,
       mkNode 11 "Z" (some 7) (Aff.transl ⟨0, 0, 1⟩) none false false true true,
       mkNode 12 "NewCand" none Aff.idAff none false false false false,
       mkNode 13 "Other" (some 0) Aff.idAff (some "Other") true true false false,
       mkNode 14 "OtherInst" none O (some "Other") false false false false,
       mkNode 15 "Bystander" none Aff.idAff none false false false false,
       mkNode 16 "Pillar" (some 0) (Aff.transl a) (some "Pillar") true true false false],
    nextId := 17, selection := [16] }

/-- The final scene of the publish-update scenario: the frame nids 2–5 now
belong to the new canonical (nid 16, named `Pillar`, under `Originals`, world
translation `a`); the stale instance subtree (nids 7–11) is gone; its
replacement (nid 17, named `Inst`, under `Grp`, pose `L`) carries a fresh
frame copy (nids 18–21); everything else is untouched. -/
def updFinal (a : Vec3) (L O : Aff) : Scene :=
  { nodes :=
      [mkNode 0 "Originals" none Aff.idAff none true true true false,
       mkNode 2 "Zero" (some 16) Aff.idAff none false false true true,
       mkNode 3 "X" (some 16) (Aff.transl ⟨1, 0, 0⟩) none false false true true,
       mkNode 4 "Y" (some 16) (Aff.transl ⟨0, 1, 0⟩) none false false true true,
       mkNode 5 "Z" (some 16) (Aff.transl ⟨0, 0, 1⟩) none false false true true,
       mkNode 6 "Grp" none Aff.idAff none false false false false,
       mkNode 12 "NewCand" none Aff.idAff none false false false false,
       mkNode 13 "Other" (some 0) Aff.idAff (some "Other") true true false false,
       mkNode 14 "OtherInst" none O (some "Other") false false false false,
       mkNode 15 "Bystander" none Aff.idAff none false false false false,
       mkNode 16 "Pillar" (some 0) (Aff.transl a) (some "Pillar") true true false false,
       mkNode 17 "Inst" (some 6) L (some "Pillar") false false false false,
       mkNode 18 "Zero" (some 17) Aff.idAff none false false true true,
       mkNode 19 "X" (some 17) (Aff.transl ⟨1, 0, 0⟩) none false false true true,
       mkNode 20 "Y" (some 17) (Aff.transl ⟨0, 1, 0⟩) none false false true true,
       mkNode 21 "Z" (some 17) (Aff.transl ⟨0, 0, 1⟩) none false false true true],
    nextId := 22, selection := [17], chunkStack := [], lastChunk := some (updMid a L O) }

set_option maxRecDepth 100000

set_option maxHeartbeats 4000000 in
/-- Symbolic execution of the whole publish-update pipeline on the scenario
scene: it succeeds and produces exactly `updFinal`. -/
theorem updScene_run (a : Vec3) (L O : Aff) :
    updateOriginalAndInstances (updScene a L O) = (Except.ok (), updFinal a L O) := by
  simp [updateOriginalAndInstances, updateInstancesLoop, updateInstancesStep,
    instantiateOriginal, findOriginal, matrixFromLocators, addIdentifier, lockTransform,
    unlockTransform, shortName, parentChildOfByName, parentCmdPath, parentCmd, parentToWorld,
    duplicateCmd, renameCmd, deleteCmd, xformQueryWorldM, xformSetWorldM, setTranslateCmd,
    setAttrLockTRS, lockNodeCmd, hideCmd, getAttrIdentifierM, spaceLocator, groupEmpty,
    openChunk, closeChunk, undoCmd, pyTry, liftE, getNode, getNodeL, nameOf, childrenOf, childrenOfL, resolveComp,
    resolvePathAux, resolvePath, childByName, worldAux, worldOf, worldOfParent, posOf,
    pathAux, pathOf, collectSubtree, freshName, freshNameAux, modifyNode, selTransforms,
    selOriginalsChildren, lsIdentifierNodes, Scene.snap, Aff.applyLin, Aff.apply, Aff.comp,
    Aff.idAff, Aff.transl, Aff.det3, Aff.inv, Aff.toList16, Aff.ofList16, Vec3.add, Vec3.sub,
    Vec3.smul, Vec3.zero, updScene, mkNode, updFinal, updMid, idIndex, remapSubtree, List.find?, List.filter,
    List.flatMap, List.any, List.all, List.contains, List.getD, List.getLastD,
    List.dropLast, List.isEmpty, List.headD]

/-- The publish-update scenario as it stands when the propagation phase
starts (the canonical swap already performed): the scene on which the
propagation loop of `updateOriginalAndInstances` runs. -/
def scene9 (a : Vec3) (L O : Aff) : Scene :=
  { nodes := (updMid a L O).nodes, nextId := 17, selection := [16],
    chunkStack := [], lastChunk := none }

set_option maxHeartbeats 2000000 in
/-- Symbolic execution of just the propagation phase (the
`for instance in cmds.ls("*.identifier")` loop) on the post-swap scene. -/
theorem scene9_run (a : Vec3) (L O : Aff) :
    updateInstancesLoop "Pillar" 16 (lsIdentifierNodes (scene9 a L O)) (scene9 a L O) =
      (Except.ok (), updFinal a L O) := by
  simp [updateInstancesLoop, updateInstancesStep,
    instantiateOriginal, findOriginal, matrixFromLocators, addIdentifier, lockTransform,
    unlockTransform, shortName, parentChildOfByName, parentCmdPath, parentCmd, parentToWorld,
    duplicateCmd, renameCmd, deleteCmd, xformQueryWorldM, xformSetWorldM, setTranslateCmd,
    setAttrLockTRS, lockNodeCmd, hideCmd, getAttrIdentifierM, spaceLocator, groupEmpty,
    openChunk, closeChunk, undoCmd, pyTry, liftE, getNode, getNodeL, nameOf, childrenOf, childrenOfL, resolveComp,
    resolvePathAux, resolvePath, childByName, worldAux, worldOf, worldOfParent, posOf,
    pathAux, pathOf, collectSubtree, freshName, freshNameAux, modifyNode, selTransforms,
    selOriginalsChildren, lsIdentifierNodes, Scene.snap, Aff.applyLin, Aff.apply, Aff.comp,
    Aff.idAff, Aff.transl, Aff.det3, Aff.inv, Aff.toList16, Aff.ofList16, Vec3.add, Vec3.sub,
    Vec3.smul, Vec3.zero, scene9, mkNode, updFinal, updMid, idIndex, remapSubtree, List.find?, List.filter,
    List.flatMap, List.any, List.all, List.contains, List.getD, List.getLastD,
    List.dropLast, List.isEmpty, List.headD]

/-- Publish-first scenario: a single unlocked transform `Pillar` at the scene
root, at the identity, selected. -/
def pillarScene : Scene :=
  { nodes := [mkNode 0 "Pillar" none Aff.idAff none false false false false],
    nextId := 1, selection := [0], chunkStack := [], lastChunk := none }

/-- The final scene of publish-first on `pillarScene`: the canonical `Pillar`
(nid 0) locked under `Originals` (nid 5) with its basis frame (nids 1–4), and
the unlocked working copy `Pillar1` (nid 6) at the root with its own frame
copy (nids 7–10). -/
def pillarFinal : Scene :=
  { nodes :=
      [mkNode 0 "Pillar" (some 5) Aff.idAff (some "Pillar") true true false false,
       mkNode 1 "Zero" (some 0) Aff.idAff none false false true true,
       mkNode 2 "X" (some 0) (Aff.transl ⟨1, 0, 0⟩) none false false true true,
       mkNode 3 "Y" (some 0) (Aff.transl ⟨0, 1, 0⟩) none false false true true,
       mkNode 4 "Z" (some 0) (Aff.transl ⟨0, 0, 1⟩) none false false true true,
       mkNode 5 "Originals" none Aff.idAff none true true true false,
       mkNode 6 "Pillar1" none Aff.idAff (some "Pillar") false false false false,
       mkNode 7 "Zero" (some 6) Aff.idAff none false false true true,
       mkNode 8 "X" (some 6) (Aff.transl ⟨1, 0, 0⟩) none false false true true,
       mkNode 9 "Y" (some 6) (Aff.transl ⟨0, 1, 0⟩) none false false true true,
       mkNode 10 "Z" (some 6) (Aff.transl ⟨0, 0, 1⟩) none false false true true],
    nextId := 11, selection := [6], chunkStack := [],
    lastChunk := some ⟨pillarScene.nodes, 1, [0]⟩ }

set_option maxHeartbeats 2000000 in
/-- Execution of the whole publish-first pipeline on `pillarScene`. -/
theorem pillarScene_run :
    initializeOriginal pillarScene = (Except.ok (), pillarFinal) := by
  simp [initializeOriginal, attachBasisFrame,
    instantiateOriginal, findOriginal, matrixFromLocators, addIdentifier, lockTransform,
    unlockTransform, shortName, parentChildOfByName, parentCmdPath, parentCmd, parentToWorld,
    duplicateCmd, renameCmd, deleteCmd, xformQueryWorldM, xformSetWorldM, setTranslateCmd,
    setAttrLockTRS, lockNodeCmd, hideCmd, getAttrIdentifierM, spaceLocator, groupEmpty,
    openChunk, closeChunk, undoCmd, pyTry, liftE, getNode, getNodeL, nameOf, childrenOf, childrenOfL, resolveComp,
    resolvePathAux, resolvePath, childByName, worldAux, worldOf, worldOfParent, posOf,
    pathAux, pathOf, collectSubtree, freshName, freshNameAux, modifyNode, selTransforms,
    selOriginalsChildren, lsIdentifierNodes, Scene.snap, Aff.applyLin, Aff.apply, Aff.comp,
    Aff.idAff, Aff.transl, Aff.det3, Aff.inv, Aff.toList16, Aff.ofList16, Vec3.add, Vec3.sub,
    Vec3.smul, Vec3.zero, pillarScene, mkNode, pillarFinal, idIndex, remapSubtree, List.find?, List.filter,
    List.flatMap, List.any, List.all, List.contains, List.getD, List.getLastD,
    List.dropLast, List.isEmpty, List.headD]

/-! ## Claim theorems -/

/-- C3: *Frame round-trip.*  For an entity whose BasisFrame was attached at
the identity transform (children at unit offsets) and which now carries an
arbitrary affine transform `T` (this includes every composition of
translation, rotation and non-uniform scale), `samplePose`
(`matrixFromLocators`) returns a matrix whose basis rows are exactly `T`'s
linear part and whose translation is exactly `T`'s translation — exact
equality over `ℚ`, hence within any floating-point tolerance. -/
theorem samplePose_roundtrip (T : Aff) :
    (matrixFromLocators (basisScene T) 0).map Aff.ofList16 = Except.ok T := by
  simp [Except.map, Option.getD, matrixFromLocators, basisScene, mkNode, childByName, resolveComp, posOf, worldOf,
    worldAux, getNode, getNodeL, Aff.ofList16, Aff.comp, Aff.apply, Aff.applyLin, Aff.idAff, Aff.transl,
    Vec3.add, Vec3.sub, Vec3.smul, Vec3.zero, List.find?, List.getD]

/-- C2: the fourth column of the matrix returned by `samplePose`
(`matrixFromLocators`).  The three basis rows do end in `0`, but the
translation row's homogeneous component is `0` as well — not the `1` a valid
affine homogeneous matrix requires (the source appends `0.0` to all four
rows).  This is the discrepancy the spec flags in §9. -/
theorem samplePose_fourth_column (T : Aff) :
    (matrixFromLocators (basisScene T) 0).map
      (fun l => (l.getD 3 1, l.getD 7 1, l.getD 11 1, l.getD 15 1)) =
      Except.ok (0, 0, 0, 0) := by
  simp [Except.map, Option.getD, matrixFromLocators, basisScene, mkNode, childByName, resolveComp, posOf, worldOf,
    worldAux, getNode, getNodeL, Aff.comp, Aff.apply, Aff.applyLin, Aff.idAff, Aff.transl,
    Vec3.add, Vec3.sub, Vec3.smul, Vec3.zero, List.find?, List.getD]

set_option maxHeartbeats 1000000 in
/-- C1: *Publish-update preserves placement.*  In the publish-update scenario
(`updScene`), for every old-canonical translation `a` and every instance pose
`L` (and every pose `O` of an unrelated instance): the update succeeds;
exactly one entity tagged `"Pillar"` exists outside `Originals` afterwards —
the replacement nid 17; it is parented at the stale instance's path
`|Grp|Inst`, carries its display name `Inst`, and its world pose equals the
stale instance's pre-update world pose exactly (over `ℚ`, hence within any
tolerance); and the stale instance nid 7 no longer exists. -/
theorem publish_update_preserves_placement (a : Vec3) (L O : Aff) :
    (updateOriginalAndInstances (updScene a L O)).1 = Except.ok () ∧
    ((updateOriginalAndInstances (updScene a L O)).2.nodes.filter
        (fun n => n.identifier == some "Pillar" &&
          !((pathOf (updateOriginalAndInstances (updScene a L O)).2 n.nid).headD "" == "Originals"))).map
      (·.nid) = [17] ∧
    pathOf (updateOriginalAndInstances (updScene a L O)).2 17 = ["Grp", "Inst"] ∧
    nameOf (updateOriginalAndInstances (updScene a L O)).2 17 = "Inst" ∧
    worldOf (updateOriginalAndInstances (updScene a L O)).2 17 = worldOf (updScene a L O) 7 ∧
    getNode (updateOriginalAndInstances (updScene a L O)).2 7 = none := by
  simp only [updScene_run]
  simp [updFinal, updMid, updScene, mkNode, pathOf, pathAux, nameOf, getNode, getNodeL,
    worldOf, worldAux, childrenOf, resolveComp, Aff.comp, Aff.apply, Aff.applyLin, Aff.idAff,
    Aff.transl, Vec3.add, Vec3.smul, Vec3.zero, List.find?, List.filter, List.headD]

set_option maxHeartbeats 1000000 in
/-- C5: after a successful publish-update on the scenario scene, the old
canonical entity (nid 1) is deleted, and the new canonical entity (nid 16)
carries the same identifier `"Pillar"`, the old entity's display name
`Pillar` and its world affine matrix (`Aff.transl a`), resides under
`Originals`, is locked (node and transform attributes), and owns exactly the
four BasisFrame points (nids 2–5) that were the old canonical's children —
the same nodes, transferred, not recreated. -/
theorem publish_update_replaces_canonical (a : Vec3) (L O : Aff) :
    (updateOriginalAndInstances (updScene a L O)).1 = Except.ok () ∧
    getNode (updateOriginalAndInstances (updScene a L O)).2 1 = none ∧
    getNode (updateOriginalAndInstances (updScene a L O)).2 16 =
      some (mkNode 16 "Pillar" (some 0) (Aff.transl a) (some "Pillar") true true false false) ∧
    nameOf (updScene a L O) 1 = "Pillar" ∧
    worldOf (updateOriginalAndInstances (updScene a L O)).2 16 = worldOf (updScene a L O) 1 ∧
    pathOf (updateOriginalAndInstances (updScene a L O)).2 16 = ["Originals", "Pillar"] ∧
    ((updateOriginalAndInstances (updScene a L O)).2.nodes.filter
        (fun n => n.parent == some 16)).map (·.nid) = [2, 3, 4, 5] ∧
    ((updScene a L O).nodes.filter (fun n => n.parent == some 1)).map (·.nid) = [2, 3, 4, 5] := by
  simp only [updScene_run]
  simp [updFinal, updMid, updScene, mkNode, pathOf, pathAux, nameOf, getNode, getNodeL,
    worldOf, worldAux, childrenOf, resolveComp, Aff.comp, Aff.apply, Aff.applyLin, Aff.idAff,
    Aff.transl, Vec3.add, Vec3.smul, Vec3.zero, List.find?, List.filter, List.headD]

set_option maxHeartbeats 1000000 in
/-- C9: *frame effect of the propagation phase.*  Running just the
propagation loop of `updateOriginalAndInstances` on the post-swap scene:
every entity inside `Originals` (the store root nid 0, the new canonical
nid 16 and its frame nids 2–5, the other canonical nid 13) and every
identifier-tagged entity with a different identifier (nid 14, at arbitrary
pose `O`) is neither deleted, re-posed, re-parented nor renamed (its node
record is unchanged), the untagged bystander nid 15 is untouched too, and
the only nodes removed are the `"Pillar"`-tagged instance outside the store
(nid 7) together with its frame children (nids 8–11). -/
theorem propagation_frame_effect (a : Vec3) (L O : Aff) :
    (updateInstancesLoop "Pillar" 16 (lsIdentifierNodes (scene9 a L O)) (scene9 a L O)).1 =
      Except.ok () ∧
    (∀ i ∈ [0, 2, 3, 4, 5, 13, 14, 15, 16],
      getNode (updateInstancesLoop "Pillar" 16 (lsIdentifierNodes (scene9 a L O)) (scene9 a L O)).2 i =
        getNode (scene9 a L O) i) ∧
    ((scene9 a L O).nodes.filter
        (fun n => !(((updateInstancesLoop "Pillar" 16 (lsIdentifierNodes (scene9 a L O)) (scene9 a L O)).2.nodes.map (·.nid)).contains n.nid))).map
      (·.nid) = [7, 8, 9, 10, 11] := by
  simp only [scene9_run]
  simp [updFinal, updMid, scene9, mkNode, getNode, getNodeL, lsIdentifierNodes,
    List.find?, List.filter, List.contains, List.any]

set_option maxHeartbeats 1000000 in
/-- C6: publish-first on a single selected transform named `Pillar` at the
identity.  Afterwards: the operation succeeded; exactly one entity tagged
`"Pillar"` lives inside `Originals` (the canonical, nid 0) and it is locked;
its identifier equals the entity's display name `Pillar`; and exactly one
entity tagged `"Pillar"` exists outside `Originals` (the instance, nid 6),
unlocked, parented at the scene root. -/
theorem publish_first_scenario :
    (initializeOriginal pillarScene).1 = Except.ok () ∧
    ((initializeOriginal pillarScene).2.nodes.filter
        (fun n => n.identifier == some "Pillar" &&
          (pathOf (initializeOriginal pillarScene).2 n.nid).headD "" == "Originals")).map
      (fun n => (n.nid, n.nodeLocked)) = [(0, true)] ∧
    (getNode (initializeOriginal pillarScene).2 0).map (·.identifier) =
      some (some (nameOf pillarScene 0)) ∧
    ((initializeOriginal pillarScene).2.nodes.filter
        (fun n => n.identifier == some "Pillar" &&
          !((pathOf (initializeOriginal pillarScene).2 n.nid).headD "" == "Originals"))).map
      (fun n => (n.nid, n.nodeLocked, n.attrLocked, n.parent)) =
      [(6, false, false, none)] := by
  simp only [pillarScene_run]
  simp [pillarFinal, pillarScene, mkNode, pathOf, pathAux, nameOf, getNode, getNodeL,
    List.find?, List.filter, List.headD]


/-- Helper projecting the BasisFrame's local offsets of entity `e`: the local
translations of the `X`/`Y`/`Z` locators relative to the `Zero` locator — the
quantities the spec's attach-time invariant speaks about. -/
def basisLocalOffsets (s : Scene) (e : Nat) : Option (Vec3 × Vec3 × Vec3) :=
  match childByName s e "Zero", childByName s e "X", childByName s e "Y", childByName s e "Z" with
  | some z, some x, some y, some w =>
    match getNode s z, getNode s x, getNode s y, getNode s w with
    | some nz, some nx, some ny, some nw =>
      some ((nx.localXf.t).sub nz.localXf.t, (ny.localXf.t).sub nz.localXf.t,
            (nw.localXf.t).sub nz.localXf.t)
    | _, _, _, _ => none
  | _, _, _, _ => none

/-- Publish-first scenario with the selected entity world-translated by
`(5, 0, 0)` at attach time. -/
def pillarAt5 : Scene :=
  { nodes := [mkNode 0 "Pillar" none (Aff.transl ⟨5, 0, 0⟩) none false false false false],
    nextId := 1, selection := [0], chunkStack := [], lastChunk := none }

/-- Publish-first scenario with the selected entity's world transform having
an arbitrary linear part (rows `l0`, `l1`, `l2`) and zero translation. -/
def attachScene (l0 l1 l2 : Vec3) : Scene :=
  { nodes := [mkNode 0 "Pillar" none ⟨l0, l1, l2, ⟨0, 0, 0⟩⟩ none false false false false],
    nextId := 1, selection := [0], chunkStack := [], lastChunk := none }

/-- Publish-first scenario on an already-locked selected entity: the step
that parents the selection into `Originals` fails, after the four locators
have already been created. -/
def pillarLocked : Scene :=
  { nodes := [mkNode 0 "Pillar" none Aff.idAff none true true false false],
    nextId := 1, selection := [0], chunkStack := [], lastChunk := none }

/-- The state in which the failed publish-first on `pillarLocked` leaves the
scene: the locators and the `Originals` group were created and remain; the
undo chunk was closed (so a single undo was available) but never invoked. -/
def pillarLockedFinal : Scene :=
  { nodes :=
      [mkNode 0 "Pillar" none Aff.idAff none true true false false,
       mkNode 1 "Zero" (some 0) Aff.idAff none false false true true,
       mkNode 2 "X" (some 0) (Aff.transl ⟨1, 0, 0⟩) none false false true true,
       mkNode 3 "Y" (some 0) (Aff.transl ⟨0, 1, 0⟩) none false false true true,
       mkNode 4 "Z" (some 0) (Aff.transl ⟨0, 0, 1⟩) none false false true true,
       mkNode 5 "Originals" none Aff.idAff none true true true false],
    nextId := 6, selection := [5], chunkStack := [], lastChunk := some pillarLocked.snap }

set_option maxHeartbeats 1000000 in
/-- Execution of publish-first on a locked selection: the parenting step
raises and the partially mutated scene is left in place (`cmds.undo()` is
commented out in the source). -/
theorem pillarLocked_run :
    initializeOriginal pillarLocked =
      (Except.error "parent: locked node cannot be re-parented", pillarLockedFinal) := by
  simp [updateOriginalAndInstances, updateInstancesLoop, updateInstancesStep,
    initializeOriginal, attachBasisFrame, instantiateOriginal, findOriginal, matrixFromLocators, addIdentifier,
    lockTransform, unlockTransform, shortName, parentChildOfByName, parentCmdPath, parentCmd,
    parentToWorld, duplicateCmd, renameCmd, deleteCmd, xformQueryWorldM, xformSetWorldM,
    setTranslateCmd, setAttrLockTRS, lockNodeCmd, hideCmd, getAttrIdentifierM, spaceLocator,
    groupEmpty, openChunk, closeChunk, undoCmd, pyTry, liftE, getNode, getNodeL, nameOf, childrenOf, childrenOfL,
    resolveComp, resolvePathAux, resolvePath, childByName, worldAux, worldOf, worldOfParent,
    posOf, pathAux, pathOf, collectSubtree, freshName, freshNameAux, modifyNode, selTransforms,
    selOriginalsChildren, lsIdentifierNodes, Scene.snap, Aff.applyLin, Aff.apply, Aff.comp,
    Aff.idAff, Aff.transl, Aff.det3, Aff.inv, Aff.toList16, Aff.ofList16, Vec3.add, Vec3.sub,
    Vec3.smul, Vec3.zero, mkNode, idIndex, remapSubtree, List.find?, List.filter,
    List.flatMap, List.any, List.all, List.contains, List.getD, List.getLastD,
    List.dropLast, List.isEmpty, List.headD, pillarLocked, pillarLockedFinal]

/-- Publish-update scenario whose old-reference carries an identifier
(`Ghost`) that resolves to no canonical entity: `Originals` holds only a
`Pillar` canonical. -/
def ghostScene : Scene :=
  { nodes :=
      [mkNode 0 "Originals" none Aff.idAff none true true true false,
       mkNode 1 "Pillar" (some 0) Aff.idAff (some "Pillar") true true false false,
       mkNode 2 "NewCand" none Aff.idAff none false false false false,
       mkNode 3 "GhostInst" none Aff.idAff (some "Ghost") false false false false],
    nextId := 4, selection := [2, 3], chunkStack := [], lastChunk := none }

/-- Publish-update on `ghostScene` fails at the canonical lookup and performs
no further mutation: the only change is the duplicate of the new candidate,
made before the lookup (line 152 precedes line 154 in the source). -/
def ghostFinal : Scene :=
  { nodes :=
      [mkNode 0 "Originals" none Aff.idAff none true true true false,
       mkNode 1 "Pillar" (some 0) Aff.idAff (some "Pillar") true true false false,
       mkNode 2 "NewCand" none Aff.idAff none false false false false,
       mkNode 3 "GhostInst" none Aff.idAff (some "Ghost") false false false false,
       mkNode 4 "NewCand1" none Aff.idAff none false false false false],
    nextId := 5, selection := [4], chunkStack := [], lastChunk := none }

set_option maxHeartbeats 1000000 in
/-- Execution of publish-update on `ghostScene`: the lookup misses and the
operation aborts with the source's error message. -/
theorem ghostScene_run :
    updateOriginalAndInstances ghostScene =
      (Except.error "Unexpected error, could not find original object with Ghost.", ghostFinal) := by
  simp [updateOriginalAndInstances, updateInstancesLoop, updateInstancesStep,
    initializeOriginal, attachBasisFrame, instantiateOriginal, findOriginal, matrixFromLocators, addIdentifier,
    lockTransform, unlockTransform, shortName, parentChildOfByName, parentCmdPath, parentCmd,
    parentToWorld, duplicateCmd, renameCmd, deleteCmd, xformQueryWorldM, xformSetWorldM,
    setTranslateCmd, setAttrLockTRS, lockNodeCmd, hideCmd, getAttrIdentifierM, spaceLocator,
    groupEmpty, openChunk, closeChunk, undoCmd, pyTry, liftE, getNode, getNodeL, nameOf, childrenOf, childrenOfL,
    resolveComp, resolvePathAux, resolvePath, childByName, worldAux, worldOf, worldOfParent,
    posOf, pathAux, pathOf, collectSubtree, freshName, freshNameAux, modifyNode, selTransforms,
    selOriginalsChildren, lsIdentifierNodes, Scene.snap, Aff.applyLin, Aff.apply, Aff.comp,
    Aff.idAff, Aff.transl, Aff.det3, Aff.inv, Aff.toList16, Aff.ofList16, Vec3.add, Vec3.sub,
    Vec3.smul, Vec3.zero, mkNode, idIndex, remapSubtree, List.find?, List.filter,
    List.flatMap, List.any, List.all, List.contains, List.getD, List.getLastD,
    List.dropLast, List.isEmpty, List.headD, ghostScene, ghostFinal]


/-- C7 (counterexample): the claim says that when any step of publish-first
fails, the operation undoes its own partial scene mutation before re-raising.
On `pillarLocked` the step parenting the selection into `Originals` fails —
after the four locators and the store group were created — and the resulting
scene is NOT restored to the initial one: the partial mutation stands
(`cmds.undo()` is commented out at line 84 of the source). -/
theorem publish_first_rollback_counterexample :
    (initializeOriginal pillarLocked).1 =
      Except.error "parent: locked node cannot be re-parented" ∧
    (initializeOriginal pillarLocked).2.nodes ≠ pillarLocked.nodes := by
  rw [pillarLocked_run]
  refine ⟨rfl, fun h => ?_⟩
  have hl := congrArg List.length h
  simp [pillarLockedFinal, pillarLocked, mkNode] at hl

/-- C7 (amended): when a step of publish-first fails, the operation closes
its undo chunk and re-raises WITHOUT undoing its partial scene mutation: on
`pillarLocked` the locators and the `Originals` group created before the
failing step remain in the scene, the undo chunk is closed (its snapshot sits
in `lastChunk`, so a single undo was available), and no undo is invoked. -/
theorem publish_first_no_rollback :
    (initializeOriginal pillarLocked).1 =
      Except.error "parent: locked node cannot be re-parented" ∧
    ((initializeOriginal pillarLocked).2.nodes.map (fun n => (n.nid, n.name, n.parent))) =
      [(0, "Pillar", none), (1, "Zero", some 0), (2, "X", some 0), (3, "Y", some 0),
       (4, "Z", some 0), (5, "Originals", none)] ∧
    (initializeOriginal pillarLocked).2.chunkStack = [] ∧
    (initializeOriginal pillarLocked).2.lastChunk = some pillarLocked.snap := by
  rw [pillarLocked_run]
  refine ⟨rfl, ?_, rfl, rfl⟩
  simp [pillarLockedFinal, mkNode]

set_option maxHeartbeats 1000000 in
/-- C4 (counterexample): publish-first on an entity whose world transform is
the translation `(5,0,0)` at attach time.  The operation succeeds, but the
four auxiliary points do NOT satisfy the unit-offset invariant: `cmds.parent`
preserves the locators' world position (the world origin), so `origin` lands
at local `(-5,0,0)` while `axisX/Y/Z` are set to local `(1,0,0)/(0,1,0)/(0,0,1)`,
making `axisX − origin = (6,0,0) ≠ (1,0,0)`. -/
theorem attach_offsets_counterexample :
    (attachBasisFrame 0 pillarAt5).1 = Except.ok () ∧
    basisLocalOffsets (attachBasisFrame 0 pillarAt5).2 0 =
      some (⟨6, 0, 0⟩, ⟨5, 1, 0⟩, ⟨5, 0, 1⟩) ∧
    basisLocalOffsets (attachBasisFrame 0 pillarAt5).2 0 ≠
      some (⟨1, 0, 0⟩, ⟨0, 1, 0⟩, ⟨0, 0, 1⟩) := by
  have h2 : basisLocalOffsets (attachBasisFrame 0 pillarAt5).2 0 =
      some (⟨6, 0, 0⟩, ⟨5, 1, 0⟩, ⟨5, 0, 1⟩) := by
    simp [attachBasisFrame, updateOriginalAndInstances, updateInstancesLoop, updateInstancesStep,
    initializeOriginal, attachBasisFrame, instantiateOriginal, findOriginal, matrixFromLocators, addIdentifier,
    lockTransform, unlockTransform, shortName, parentChildOfByName, parentCmdPath, parentCmd,
    parentToWorld, duplicateCmd, renameCmd, deleteCmd, xformQueryWorldM, xformSetWorldM,
    setTranslateCmd, setAttrLockTRS, lockNodeCmd, hideCmd, getAttrIdentifierM, spaceLocator,
    groupEmpty, openChunk, closeChunk, undoCmd, pyTry, liftE, getNode, getNodeL, nameOf, childrenOf, childrenOfL,
    resolveComp, resolvePathAux, resolvePath, childByName, worldAux, worldOf, worldOfParent,
    posOf, pathAux, pathOf, collectSubtree, freshName, freshNameAux, modifyNode, selTransforms,
    selOriginalsChildren, lsIdentifierNodes, Scene.snap, Aff.applyLin, Aff.apply, Aff.comp,
    Aff.idAff, Aff.transl, Aff.det3, Aff.inv, Aff.toList16, Aff.ofList16, Vec3.add, Vec3.sub,
    Vec3.smul, Vec3.zero, mkNode, idIndex, remapSubtree, basisLocalOffsets, List.find?,
    List.filter, List.flatMap, List.any, List.all, List.contains, List.getD, List.getLastD,
    List.dropLast, List.isEmpty, List.headD, pillarAt5]
    norm_num
  refine ⟨?_, h2, ?_⟩
  · simp [attachBasisFrame, updateOriginalAndInstances, updateInstancesLoop, updateInstancesStep,
    initializeOriginal, instantiateOriginal, findOriginal, matrixFromLocators, addIdentifier,
    lockTransform, unlockTransform, shortName, parentChildOfByName, parentCmdPath, parentCmd,
    parentToWorld, duplicateCmd, renameCmd, deleteCmd, xformQueryWorldM, xformSetWorldM,
    setTranslateCmd, setAttrLockTRS, lockNodeCmd, hideCmd, getAttrIdentifierM, spaceLocator,
    groupEmpty, openChunk, closeChunk, undoCmd, pyTry, liftE, getNode, getNodeL, nameOf, childrenOf, childrenOfL,
    resolveComp, resolvePathAux, resolvePath, childByName, worldAux, worldOf, worldOfParent,
    posOf, pathAux, pathOf, collectSubtree, freshName, freshNameAux, modifyNode, selTransforms,
    selOriginalsChildren, lsIdentifierNodes, Scene.snap, Aff.applyLin, Aff.apply, Aff.comp,
    Aff.idAff, Aff.transl, Aff.det3, Aff.inv, Aff.toList16, Aff.ofList16, Vec3.add, Vec3.sub,
    Vec3.smul, Vec3.zero, mkNode, idIndex, remapSubtree, basisLocalOffsets, List.find?,
    List.filter, List.flatMap, List.any, List.all, List.contains, List.getD, List.getLastD,
    List.dropLast, List.isEmpty, List.headD, pillarAt5]
  · rw [h2]
    norm_num

set_option maxHeartbeats 2000000 in
/-- C4 (amended): for every selected entity whose world transform at attach
time has zero translation (arbitrary linear part, e.g. the identity or any
rotation/scale), the locator-creation steps of publish-first leave the four
auxiliary points at the invariant offsets `axisX − origin = (1,0,0)`,
`axisY − origin = (0,1,0)`, `axisZ − origin = (0,0,1)` in the entity's local
space. -/
theorem attach_offsets_zero_translation (l0 l1 l2 : Vec3) :
    (attachBasisFrame 0 (attachScene l0 l1 l2)).1 = Except.ok () ∧
    basisLocalOffsets (attachBasisFrame 0 (attachScene l0 l1 l2)).2 0 =
      some (⟨1, 0, 0⟩, ⟨0, 1, 0⟩, ⟨0, 0, 1⟩) := by
  constructor
  · simp [attachBasisFrame, updateOriginalAndInstances, updateInstancesLoop, updateInstancesStep,
    initializeOriginal, instantiateOriginal, findOriginal, matrixFromLocators, addIdentifier,
    lockTransform, unlockTransform, shortName, parentChildOfByName, parentCmdPath, parentCmd,
    parentToWorld, duplicateCmd, renameCmd, deleteCmd, xformQueryWorldM, xformSetWorldM,
    setTranslateCmd, setAttrLockTRS, lockNodeCmd, hideCmd, getAttrIdentifierM, spaceLocator,
    groupEmpty, openChunk, closeChunk, undoCmd, pyTry, liftE, getNode, getNodeL, nameOf, childrenOf, childrenOfL,
    resolveComp, resolvePathAux, resolvePath, childByName, worldAux, worldOf, worldOfParent,
    posOf, pathAux, pathOf, collectSubtree, freshName, freshNameAux, modifyNode, selTransforms,
    selOriginalsChildren, lsIdentifierNodes, Scene.snap, Aff.applyLin, Aff.apply, Aff.comp,
    Aff.idAff, Aff.transl, Aff.det3, Aff.inv, Aff.toList16, Aff.ofList16, Vec3.add, Vec3.sub,
    Vec3.smul, Vec3.zero, mkNode, idIndex, remapSubtree, basisLocalOffsets, List.find?,
    List.filter, List.flatMap, List.any, List.all, List.contains, List.getD, List.getLastD,
    List.dropLast, List.isEmpty, List.headD, attachScene]
  · simp [updateOriginalAndInstances, updateInstancesLoop, updateInstancesStep,
    initializeOriginal, attachBasisFrame, instantiateOriginal, findOriginal, matrixFromLocators, addIdentifier,
    lockTransform, unlockTransform, shortName, parentChildOfByName, parentCmdPath, parentCmd,
    parentToWorld, duplicateCmd, renameCmd, deleteCmd, xformQueryWorldM, xformSetWorldM,
    setTranslateCmd, setAttrLockTRS, lockNodeCmd, hideCmd, getAttrIdentifierM, spaceLocator,
    groupEmpty, openChunk, closeChunk, undoCmd, pyTry, liftE, getNode, getNodeL, nameOf, childrenOf, childrenOfL,
    resolveComp, resolvePathAux, resolvePath, childByName, worldAux, worldOf, worldOfParent,
    posOf, pathAux, pathOf, collectSubtree, freshName, freshNameAux, modifyNode, selTransforms,
    selOriginalsChildren, lsIdentifierNodes, Scene.snap, Aff.applyLin, Aff.apply, Aff.comp,
    Aff.idAff, Aff.transl, Aff.det3, Aff.inv, Aff.toList16, Aff.ofList16, Vec3.add, Vec3.sub,
    Vec3.smul, Vec3.zero, mkNode, idIndex, remapSubtree, basisLocalOffsets, List.find?,
    List.filter, List.flatMap, List.any, List.all, List.contains, List.getD, List.getLastD,
    List.dropLast, List.isEmpty, List.headD, attachScene]

/-- An entity is "under CanonicalStore" when its parent is the root-level
`Originals` node. -/
def underStore (s : Scene) (n : Node) : Prop :=
  ∃ r, resolveComp s.nodes none "Originals" = some r ∧ n.parent = some r

/-- C8: `findOriginal` returns `none` whenever no identifier-tagged entity
under `Originals` carries the requested value (for every scene); and
publish-update on a scene whose old-reference identifier (`Ghost`) resolves
to no canonical entity fails with the source's error, the only mutation being
the duplicate of the new candidate made before the lookup — nothing after
the failed lookup mutates the scene. -/
theorem findOriginal_miss_aborts_update :
    (∀ (s : Scene) (idf : String),
      (∀ n ∈ s.nodes, underStore s n → n.identifier ≠ some idf) →
      findOriginal s idf = none) ∧
    (updateOriginalAndInstances ghostScene).1 =
      Except.error "Unexpected error, could not find original object with Ghost." ∧
    (updateOriginalAndInstances ghostScene).2.nodes =
      ghostScene.nodes ++ [mkNode 4 "NewCand1" none Aff.idAff none false false false false] := by
  refine ⟨?_, ?_, ?_⟩
  · intro s idf h
    unfold findOriginal
    cases hr : resolveComp s.nodes none "Originals" with
    | none => rfl
    | some r =>
      have hnone :
          (s.nodes.filter (fun n => n.parent == some r && n.identifier.isSome)).find?
            (fun n => n.identifier == some idf) = none := by
        rw [List.find?_eq_none]
        intro n hn
        have hmem := List.mem_filter.mp hn
        have hp : n.parent = some r := by
          have h2 := hmem.2
          simp only [Bool.and_eq_true, beq_iff_eq] at h2
          exact h2.1
        have hid := h n hmem.1 ⟨r, hr, hp⟩
        simpa using hid
      show Option.map (fun x => x.nid)
        ((s.nodes.filter (fun n => n.parent == some r && n.identifier.isSome)).find?
          (fun n => n.identifier == some idf)) = none
      rw [hnone]
      rfl
  · rw [ghostScene_run]
  · rw [ghostScene_run]
    simp [ghostFinal, ghostScene, mkNode]

/-- Witness for `findOriginal_miss_aborts_update`: on the concrete
`pillarScene` (which has no `Originals` group at all, hence no tagged entity
under the store) the lookup for `"Ghost"` returns `none`. -/
theorem findOriginal_miss_aborts_update_witness :
    findOriginal pillarScene "Ghost" = none :=
  findOriginal_miss_aborts_update.1 pillarScene "Ghost" (by
    intro n hn hstore
    rcases hstore with ⟨r, hr, _⟩
    simp [resolveComp, pillarScene, mkNode, List.find?] at hr)

theorem find?_append_left_none {α : Type} (p : α → Bool) (l₁ l₂ : List α)
    (h : l₁.find? p = none) : (l₁ ++ l₂).find? p = l₂.find? p := by
  induction l₁ with
  | nil => simp
  | cons a l ih =>
    rw [List.cons_append]
    simp only [List.find?_cons] at h ⊢
    cases hp : p a with
    | true => simp [hp] at h
    | false =>
      simp only [hp] at h ⊢
      exact ih h

theorem find?_map_nid (g : Node → Node) (hg : ∀ n, (g n).nid = n.nid) (l : List Node) (i : Nat) :
    (l.map g).find? (fun n => n.nid == i) = (l.find? (fun n => n.nid == i)).map g := by
  induction l with
  | nil => simp
  | cons a l ih =>
    simp only [List.map_cons, List.find?_cons, hg a]
    cases hp : (a.nid == i) with
    | true => simp [hp]
    | false => simpa [hp] using ih

theorem find?_nid_none (l : List Node) (b : Nat) (h : ∀ n ∈ l, n.nid < b) :
    l.find? (fun n => n.nid == b) = none := by
  rw [List.find?_eq_none]
  intro n hn
  simp [Nat.ne_of_lt (h n hn)]



/-- Closed-form execution of `instantiateOriginal` when called with an
explicit (non-`None`) argument naming an existing node, on a well-formed
scene: it succeeds, returns the fresh id, and neither the resulting node list
nor the returned value depends on the current selection (the selection
appears only in the undo snapshot).  The copy is the fresh-id node, unlocked,
detached to the root, carrying the original's identifier. -/
theorem instantiate_some_run (ns : List Node) (x i : Nat) (orig : Node)
    (hWF : ∀ n ∈ ns, n.nid < x) (horig : ns.find? (fun n => n.nid == i) = some orig) :
    ∃ nodesF : List Node,
      (∀ (sel : List Nat) (cs : List Snap) (lc : Option Snap),
        instantiateOriginal (some i) ⟨ns, x, sel, cs, lc⟩ =
          (Except.ok x,
            ⟨nodesF, x + (collectSubtree ns ns i).length, [x], cs, some ⟨ns, x, sel⟩⟩)) ∧
      ∃ w : Aff,
        getNodeL nodesF x =
          some ⟨x, freshName ns orig.name, none, w, orig.identifier, false, false,
                orig.hidden, orig.isLocator⟩ := by
  obtain ⟨rest, hsub⟩ : ∃ rest, collectSubtree ns ns i = orig :: rest := by
    cases hns : ns with
    | nil => rw [hns] at horig; simp [List.find?] at horig
    | cons hd tl =>
      subst hns
      refine ⟨(childrenOfL (hd :: tl) i).flatMap (fun c => collectSubtree (hd :: tl) tl c.nid), ?_⟩
      rw [collectSubtree, show getNodeL (hd :: tl) i = some orig from horig]
  have hNEW : remapSubtree x (freshName ns orig.name) ((orig :: rest).map (·.nid)) 0 (orig :: rest) =
      (⟨x, freshName ns orig.name, orig.parent, orig.localXf, orig.identifier, orig.nodeLocked,
        orig.attrLocked, orig.hidden, orig.isLocator⟩ : Node) ::
        remapSubtree x (freshName ns orig.name) ((orig :: rest).map (·.nid)) 1 rest := by
    simp [remapSubtree]
  generalize hnm : freshName ns orig.name = nm at hNEW ⊢
  generalize hR : remapSubtree x nm ((orig :: rest).map (·.nid)) 1 rest = R at hNEW
  have hfind1 : (ns ++ (⟨x, nm, orig.parent, orig.localXf, orig.identifier, orig.nodeLocked, orig.attrLocked, orig.hidden, orig.isLocator⟩ : Node) :: R).find? (fun n => n.nid == x) = some (⟨x, nm, orig.parent, orig.localXf, orig.identifier, orig.nodeLocked, orig.attrLocked, orig.hidden, orig.isLocator⟩ : Node) := by
    rw [find?_append_left_none _ _ _ (find?_nid_none ns x hWF)]
    simp [List.find?_cons]
  have hg1 : ∀ n : Node, ((fun n : Node => if (n.nid == x) = true then ⟨n.nid, n.name, n.parent, n.localXf, n.identifier, false, n.attrLocked, n.hidden, n.isLocator⟩ else n) n).nid = n.nid := by
    intro n
    by_cases h : (n.nid == x) = true <;> simp [h]
  have hg2 : ∀ n : Node, ((fun n : Node => if (n.nid == x) = true then ⟨n.nid, n.name, n.parent, n.localXf, n.identifier, n.nodeLocked, false, n.hidden, n.isLocator⟩ else n) n).nid = n.nid := by
    intro n
    by_cases h : (n.nid == x) = true <;> simp [h]
  have hfind2 : (List.map (fun n : Node => if (n.nid == x) = true then ⟨n.nid, n.name, n.parent, n.localXf, n.identifier, false, n.attrLocked, n.hidden, n.isLocator⟩ else n) (ns ++ (⟨x, nm, orig.parent, orig.localXf, orig.identifier, orig.nodeLocked, orig.attrLocked, orig.hidden, orig.isLocator⟩ : Node) :: R)).find? (fun n => n.nid == x) = some (⟨x, nm, orig.parent, orig.localXf, orig.identifier, false, orig.attrLocked, orig.hidden, orig.isLocator⟩ : Node) := by
    rw [find?_map_nid _ hg1, hfind1]
    simp
  have hfind3 : (List.map (fun n : Node => if (n.nid == x) = true then ⟨n.nid, n.name, n.parent, n.localXf, n.identifier, n.nodeLocked, false, n.hidden, n.isLocator⟩ else n) (List.map (fun n : Node => if (n.nid == x) = true then ⟨n.nid, n.name, n.parent, n.localXf, n.identifier, false, n.attrLocked, n.hidden, n.isLocator⟩ else n) (ns ++ (⟨x, nm, orig.parent, orig.localXf, orig.identifier, orig.nodeLocked, orig.attrLocked, orig.hidden, orig.isLocator⟩ : Node) :: R))).find? (fun n => n.nid == x) = some (⟨x, nm, orig.parent, orig.localXf, orig.identifier, false, false, orig.hidden, orig.isLocator⟩ : Node) := by
    rw [find?_map_nid _ hg2, hfind2]
    simp
  refine ⟨(List.map (fun n : Node => if (n.nid == x) = true then ⟨n.nid, n.name, none, worldAux (List.map (fun n : Node => if (n.nid == x) = true then ⟨n.nid, n.name, n.parent, n.localXf, n.identifier, n.nodeLocked, false, n.hidden, n.isLocator⟩ else n) (List.map (fun n : Node => if (n.nid == x) = true then ⟨n.nid, n.name, n.parent, n.localXf, n.identifier, false, n.attrLocked, n.hidden, n.isLocator⟩ else n) (ns ++ (⟨x, nm, orig.parent, orig.localXf, orig.identifier, orig.nodeLocked, orig.attrLocked, orig.hidden, orig.isLocator⟩ : Node) :: R))) (List.map (fun n : Node => if (n.nid == x) = true then ⟨n.nid, n.name, n.parent, n.localXf, n.identifier, n.nodeLocked, false, n.hidden, n.isLocator⟩ else n) (List.map (fun n : Node => if (n.nid == x) = true then ⟨n.nid, n.name, n.parent, n.localXf, n.identifier, false, n.attrLocked, n.hidden, n.isLocator⟩ else n) (ns ++ (⟨x, nm, orig.parent, orig.localXf, orig.identifier, orig.nodeLocked, orig.attrLocked, orig.hidden, orig.isLocator⟩ : Node) :: R))) (some x), n.identifier, n.nodeLocked, n.attrLocked, n.hidden, n.isLocator⟩ else n) (List.map (fun n : Node => if (n.nid == x) = true then ⟨n.nid, n.name, n.parent, n.localXf, n.identifier, n.nodeLocked, false, n.hidden, n.isLocator⟩ else n) (List.map (fun n : Node => if (n.nid == x) = true then ⟨n.nid, n.name, n.parent, n.localXf, n.identifier, false, n.attrLocked, n.hidden, n.isLocator⟩ else n) (ns ++ (⟨x, nm, orig.parent, orig.localXf, orig.identifier, orig.nodeLocked, orig.attrLocked, orig.hidden, orig.isLocator⟩ : Node) :: R)))), fun sel cs lc => ?_, ?_⟩
  · rw [instantiateOriginal]
    simp only [bind_M_def, pure_M_def, pyTry_def, getS_def, setS_def, modifyS_def,
      openChunk, closeChunk, undoCmd, Scene.snap, duplicateCmd]
    rw [show getNode ⟨ns, x, sel, ⟨ns, x, sel⟩ :: cs, lc⟩ i = some orig from horig]
    simp only [hsub, hnm, hNEW, hR, List.length_cons]
    simp only [unlockTransform, lockNodeCmd, setAttrLockTRS, parentToWorld, bind_M_def,
      getNode, getNodeL, modifyNode, worldOf]
    rw [hfind1]
    simp only [bind_M_def]
    rw [hfind2]
    simp only [bind_M_def]
    rw [hfind3]
    simp
  · refine ⟨worldAux (List.map (fun n : Node => if (n.nid == x) = true then ⟨n.nid, n.name, n.parent, n.localXf, n.identifier, n.nodeLocked, false, n.hidden, n.isLocator⟩ else n) (List.map (fun n : Node => if (n.nid == x) = true then ⟨n.nid, n.name, n.parent, n.localXf, n.identifier, false, n.attrLocked, n.hidden, n.isLocator⟩ else n) (ns ++ (⟨x, nm, orig.parent, orig.localXf, orig.identifier, orig.nodeLocked, orig.attrLocked, orig.hidden, orig.isLocator⟩ : Node) :: R))) (List.map (fun n : Node => if (n.nid == x) = true then ⟨n.nid, n.name, n.parent, n.localXf, n.identifier, n.nodeLocked, false, n.hidden, n.isLocator⟩ else n) (List.map (fun n : Node => if (n.nid == x) = true then ⟨n.nid, n.name, n.parent, n.localXf, n.identifier, false, n.attrLocked, n.hidden, n.isLocator⟩ else n) (ns ++ (⟨x, nm, orig.parent, orig.localXf, orig.identifier, orig.nodeLocked, orig.attrLocked, orig.hidden, orig.isLocator⟩ : Node) :: R))) (some x), ?_⟩
    unfold getNodeL
    rw [find?_map_nid _ (fun n => by by_cases h : (n.nid == x) = true <;> simp [h]), hfind3]
    simp

/-- C10: for every non-`None` argument, `instantiateOriginal` never consults
the current selection and never raises the selection-count error: under any
selection `sel` whatsoever (including the empty one) it succeeds with the
same result and the same resulting nodes as under the scene's own selection,
and it returns an unlocked duplicate of the given entity parented at the top
of the scene hierarchy (parent `none`), carrying the original's
identifier. -/
theorem instantiateOriginal_explicit_argument (s : Scene) (i : Nat) (orig : Node) (sel : List Nat)
    (hWF : ∀ n ∈ s.nodes, n.nid < s.nextId) (horig : getNode s i = some orig) :
    (instantiateOriginal (some i) { s with selection := sel }).1 = Except.ok s.nextId ∧
    (instantiateOriginal (some i) { s with selection := sel }).2.nodes =
      (instantiateOriginal (some i) s).2.nodes ∧
    (instantiateOriginal (some i) { s with selection := sel }).2.selection = [s.nextId] ∧
    ∃ n, getNode (instantiateOriginal (some i) { s with selection := sel }).2 s.nextId = some n ∧
      n.parent = none ∧ n.nodeLocked = false ∧ n.attrLocked = false ∧
      n.identifier = orig.identifier := by
  obtain ⟨nodesF, hrun, w, hcopy⟩ := instantiate_some_run s.nodes s.nextId i orig hWF horig
  have H1 : instantiateOriginal (some i) { s with selection := sel } =
      (Except.ok s.nextId,
        ⟨nodesF, s.nextId + (collectSubtree s.nodes s.nodes i).length, [s.nextId],
         s.chunkStack, some ⟨s.nodes, s.nextId, sel⟩⟩) :=
    hrun sel s.chunkStack s.lastChunk
  have H2 : instantiateOriginal (some i) s =
      (Except.ok s.nextId,
        ⟨nodesF, s.nextId + (collectSubtree s.nodes s.nodes i).length, [s.nextId],
         s.chunkStack, some ⟨s.nodes, s.nextId, s.selection⟩⟩) :=
    hrun s.selection s.chunkStack s.lastChunk
  refine ⟨by rw [H1], by rw [H1, H2], by rw [H1], ?_⟩
  refine ⟨⟨s.nextId, freshName s.nodes orig.name, none, w, orig.identifier, false, false,
    orig.hidden, orig.isLocator⟩, ?_, rfl, rfl, rfl, rfl⟩
  rw [H1]
  exact hcopy

/-- Witness for `instantiateOriginal_explicit_argument` at the concrete
`pillarScene` with an empty selection. -/
theorem instantiateOriginal_explicit_argument_witness :
    (instantiateOriginal (some 0) { pillarScene with selection := [] }).1 = Except.ok 1 :=
  (instantiateOriginal_explicit_argument pillarScene 0
    (mkNode 0 "Pillar" none Aff.idAff none false false false false) []
    (by simp [pillarScene, mkNode])
    (by simp [getNode, getNodeL, pillarScene, mkNode, List.find?])).1

/-- Witness for `propagation_frame_effect` at a concrete pose: the other
canonical's instance (nid 13) is untouched by the propagation loop. -/
theorem propagation_frame_effect_witness :
    getNode (updateInstancesLoop "Pillar" 16
        (lsIdentifierNodes (scene9 ⟨1, 2, 3⟩ Aff.idAff Aff.idAff))
        (scene9 ⟨1, 2, 3⟩ Aff.idAff Aff.idAff)).2 13 =
      getNode (scene9 ⟨1, 2, 3⟩ Aff.idAff Aff.idAff) 13 :=
  (propagation_frame_effect ⟨1, 2, 3⟩ Aff.idAff Aff.idAff).2.1 13 (by simp)
